import Mathlib

/-!
Verification of the core engines of `src/sensei_BOSS.py` (Carspital Sensei API):
the template-retrieval matcher (`query_knowledge_base`) and the geo-aware pricing
engine (`calculate_boda_pricing` / `calculate_price_estimate`), together with the
static catalog built by `load_pricing_matrix` and `load_diagnostic_templates`.

Modelling conventions:
* Python strings are modelled as `String` / `List Char`; `str.lower()` is `pyLower`,
  the `in` substring test is `isSubstring`, `str.title()` is `pyTitle`.
* Python floats carry only exact decimal values in this program; they are modelled
  as exact rationals (`ℚ`), and `int()` as `pyInt` (truncation toward zero).
* Python dicts preserve insertion order and are modelled as ordered association
  lists; `dict.get` with a default becomes a `find?`/`getD` combination.
* Presentation-only formatted strings (`breakdown`, `example`, `message` f-strings)
  and the catalog fields that no control flow reads (diagnosis text, probable
  causes, DIY steps, Kenya context, `business_model`, `pain_points`,
  `coverage_policy`) are omitted from the embedding.
-/

set_option maxRecDepth 100000

/-- Python `str.lower()` on the character list of a string (ASCII data only). -/
def pyLower (s : List Char) : List Char := s.map Char.toLower

/-- Python `needle in hay` substring containment on character lists. -/
def isSubstring (needle : List Char) : List Char → Bool
  | [] => needle.isEmpty
  | c :: rest => needle.isPrefixOf (c :: rest) || isSubstring needle rest

/-- Helper for `pyTitle`: uppercase an alphabetic character that starts a word,
lowercase the rest, tracking whether the previous character was alphabetic. -/
def pyTitleGo (prevAlpha : Bool) : List Char → List Char
  | [] => []
  | c :: rest =>
      (if c.isAlpha then (if prevAlpha then c.toLower else c.toUpper) else c) ::
        pyTitleGo c.isAlpha rest

/-- Python `str.title()`. -/
def pyTitle (s : List Char) : List Char := pyTitleGo false s

/-- Python `str.replace('_', ' ')` (single-character pattern, so a plain map). -/
def underscoreToSpace (s : List Char) : List Char :=
  s.map (fun c => if c = '_' then ' ' else c)

/-- Python `int()` applied to a rational value: truncation toward zero. -/
def pyInt (q : ℚ) : ℤ := if 0 ≤ q then ⌊q⌋ else -⌊-q⌋

theorem pyInt_of_nonneg (q : ℚ) (h : 0 ≤ q) : pyInt q = ⌊q⌋ := by
  rw [pyInt, if_pos h]

theorem pyInt_nonneg (q : ℚ) (h : 0 ≤ q) : 0 ≤ pyInt q := by
  rw [pyInt_of_nonneg q h]; exact Int.floor_nonneg.mpr h

theorem pyInt_mono (a b : ℚ) (h0 : 0 ≤ a) (hab : a ≤ b) : pyInt a ≤ pyInt b := by
  rw [pyInt_of_nonneg a h0, pyInt_of_nonneg b (h0.trans hab)]
  exact Int.floor_le_floor hab

/-! ## Diagnostic templates (`load_diagnostic_templates`)

Each template record keeps the fields the matcher and pricing engine read:
`id`, `keywords`, `price_service` and `confidence`. -/

structure Template where
  id : String
  keywords : List String
  price_service : String
  confidence : String
deriving DecidableEq

/-- The 50 diagnostic templates of `load_diagnostic_templates`, in source order. -/
def diagnostic_templates : List Template := [
  ⟨"battery_dead", ["won\x27t start", "clicking sound", "dashboard lights dim", "headlights weak", "jump start"], "battery_replacement", "HIGH"⟩,
  ⟨"battery_intermittent", ["sometimes won\x27t start", "starts after few tries", "morning start problem"], "diagnostic_scan", "MEDIUM"⟩,
  ⟨"engine_overheat", ["temperature gauge high", "steam from hood", "engine hot", "coolant warning"], "radiator", "HIGH"⟩,
  ⟨"brake_noise", ["squeaking brakes", "grinding noise", "brake sound"], "brake_pads", "HIGH"⟩,
  ⟨"brake_soft", ["soft brake pedal", "spongy brakes", "brake goes to floor"], "brake_pads", "MEDIUM"⟩,
  ⟨"alternator_failure", ["battery light on", "lights dimming", "radio cutting out", "dashboard flickering"], "alternator", "HIGH"⟩,
  ⟨"starter_motor", ["clicking but won\x27t turn over", "engine not cranking", "starter click"], "starter_motor", "MEDIUM"⟩,
  ⟨"transmission_slip", ["gears slipping", "transmission not shifting", "delayed engagement", "burning smell"], "transmission", "LOW"⟩,
  ⟨"oil_leak", ["oil under car", "oil dripping", "oil smell", "low oil"], "oil_change", "MEDIUM"⟩,
  ⟨"flat_tire", ["flat tire", "tire puncture", "tire pressure low", "tire warning light"], "diagnostic_scan", "HIGH"⟩,
  ⟨"engine_misfire", ["engine shaking", "rough idle", "check engine light", "loss of power"], "diagnostic_scan", "MEDIUM"⟩,
  ⟨"suspension_noise", ["clunking noise", "rattling over bumps", "suspension noise"], "diagnostic_scan", "MEDIUM"⟩,
  ⟨"loud_exhaust", ["loud exhaust", "exhaust noise", "rumbling sound"], "diagnostic_scan", "HIGH"⟩,
  ⟨"ac_not_cooling", ["ac not cold", "air conditioning weak", "ac blowing warm"], "diagnostic_scan", "MEDIUM"⟩,
  ⟨"steering_heavy", ["hard to steer", "heavy steering", "steering difficult"], "diagnostic_scan", "MEDIUM"⟩,
  ⟨"poor_fuel_economy", ["using too much fuel", "bad mileage", "fuel consumption high"], "diagnostic_scan", "LOW"⟩,
  ⟨"window_stuck", ["window won\x27t roll up", "power window not working", "window stuck"], "diagnostic_scan", "MEDIUM"⟩,
  ⟨"check_engine_light", ["check engine light", "engine warning light", "malfunction indicator"], "diagnostic_scan", "LOW"⟩,
  ⟨"car_wont_start_fuel", ["won\x27t start", "cranks but won\x27t start", "turns over but won\x27t start", "no fuel"], "diagnostic_scan", "MEDIUM"⟩,
  ⟨"headlights_dim", ["dim headlights", "lights weak", "lights flickering"], "alternator", "MEDIUM"⟩,
  ⟨"coolant_leak", ["coolant leak", "green fluid under car", "pink fluid leak", "radiator leak"], "radiator", "HIGH"⟩,
  ⟨"clutch_slipping", ["clutch slipping", "revs high but car slow", "burning smell clutch"], "transmission", "HIGH"⟩,
  ⟨"abs_light", ["abs light on", "abs warning", "brake light on"], "diagnostic_scan", "MEDIUM"⟩,
  ⟨"airbag_light", ["airbag light", "srs light", "airbag warning"], "diagnostic_scan", "LOW"⟩,
  ⟨"loss_of_power", ["loss of power", "car slow", "no acceleration", "sluggish"], "diagnostic_scan", "LOW"⟩,
  ⟨"black_smoke", ["black smoke", "dark exhaust", "soot from exhaust"], "diagnostic_scan", "MEDIUM"⟩,
  ⟨"white_smoke", ["white smoke", "steam from exhaust", "coolant smell"], "transmission", "HIGH"⟩,
  ⟨"blue_smoke", ["blue smoke", "oil smoke", "burning oil smell"], "diagnostic_scan", "HIGH"⟩,
  ⟨"hard_to_start", ["hard to start", "takes time to start", "slow crank"], "battery_replacement", "MEDIUM"⟩,
  ⟨"vibration_idle", ["shaking at idle", "rough idle", "vibration when stopped"], "diagnostic_scan", "MEDIUM"⟩,
  ⟨"vibration_speed", ["shaking at speed", "vibration highway", "wobble at 100km"], "diagnostic_scan", "HIGH"⟩,
  ⟨"knocking_engine", ["knocking sound engine", "pinging", "detonation", "engine knock"], "diagnostic_scan", "MEDIUM"⟩,
  ⟨"grinding_noise", ["grinding noise", "metal on metal", "scraping sound"], "brake_pads", "HIGH"⟩,
  ⟨"whistling_sound", ["whistling sound", "high pitched noise", "squealing belt"], "diagnostic_scan", "HIGH"⟩,
  ⟨"radio_cutting_out", ["radio cuts out", "electronics flickering", "dashboard resets"], "alternator", "MEDIUM"⟩,
  ⟨"power_steering_leak", ["power steering leak", "red fluid leak", "steering fluid low"], "diagnostic_scan", "MEDIUM"⟩,
  ⟨"transmission_leak", ["transmission leak", "red fluid under car", "gearbox leak"], "transmission", "HIGH"⟩,
  ⟨"oxygen_sensor", ["check engine light", "o2 sensor", "oxygen sensor", "emissions"], "diagnostic_scan", "MEDIUM"⟩,
  ⟨"diesel_hard_start", ["diesel hard to start", "glow plugs", "white smoke diesel", "diesel cold start"], "diagnostic_scan", "HIGH"⟩,
  ⟨"diesel_smoke", ["black smoke diesel", "excessive diesel smoke"], "diagnostic_scan", "MEDIUM"⟩,
  ⟨"hybrid_warning", ["hybrid warning light", "triangle warning", "hybrid battery", "ready light"], "diagnostic_scan", "LOW"⟩,
  ⟨"tpms_light", ["tire pressure light", "tpms warning", "low tire pressure"], "diagnostic_scan", "HIGH"⟩,
  ⟨"key_fob_not_working", ["key fob dead", "remote not working", "keyless entry failed"], "diagnostic_scan", "HIGH"⟩,
  ⟨"maf_sensor", ["rough idle", "hesitation", "poor acceleration", "black smoke", "high fuel consumption"], "diagnostic_scan", "MEDIUM"⟩,
  ⟨"timing_belt", ["timing belt", "engine wont start after service", "ticking sound engine"], "transmission", "HIGH"⟩,
  ⟨"wiper_not_working", ["wipers not working", "windshield wipers dead", "wiper motor"], "diagnostic_scan", "HIGH"⟩,
  ⟨"fuel_smell", ["smell gas", "fuel smell", "petrol smell", "fuel leak"], "diagnostic_scan", "HIGH"⟩,
  ⟨"catalytic_converter", ["rotten egg smell", "loss of power", "check engine light", "rattling under car"], "diagnostic_scan", "MEDIUM"⟩,
  ⟨"wheel_bearing", ["humming noise", "grinding noise wheels", "rumbling sound", "noise increases with speed"], "diagnostic_scan", "HIGH"⟩,
  ⟨"heater_not_working", ["heater not working", "no hot air", "ac only cold", "heating broken"], "diagnostic_scan", "MEDIUM"⟩]

/-! ## Template matcher (`query_knowledge_base`) -/

/-- The keywords of template `t` that occur (case-insensitively) in the lowered
user input: the `matched_keywords` list accumulated by the keyword loop. -/
def matched_keywords (user_input_lower : List Char) (t : Template) : List String :=
  t.keywords.filter (fun k => isSubstring (pyLower k.data) user_input_lower)

/-- The `match_score` counter of the keyword loop: one point per matching keyword. -/
def match_score (user_input_lower : List Char) (t : Template) : ℕ :=
  (matched_keywords user_input_lower t).length

/-- One entry of the `template_matches` list built by `query_knowledge_base`. -/
structure TemplateMatch where
  template : Template
  score : ℕ
  matched_keywords : List String
deriving DecidableEq

/-- The `template_matches` list: templates in catalog order, keeping those with
`match_score > 0` together with their score and matched keywords. -/
def template_matches (user_input_lower : List Char) (templates : List Template) :
    List TemplateMatch :=
  templates.filterMap (fun t =>
    if 0 < match_score user_input_lower t then
      some ⟨t, match_score user_input_lower t, matched_keywords user_input_lower t⟩
    else none)

/-- Stable insertion for a descending sort by score: an element is placed before
the first existing element whose score does not exceed it. -/
def insertByScore (x : TemplateMatch) : List TemplateMatch → List TemplateMatch
  | [] => [x]
  | y :: ys => if y.score ≤ x.score then x :: y :: ys else y :: insertByScore x ys

/-- Models the in-place Python list sort of the match list by score with
reverse set: a stable descending sort (equal scores keep their original order). -/
def sortByScoreDesc : List TemplateMatch → List TemplateMatch
  | [] => []
  | x :: xs => insertByScore x (sortByScoreDesc xs)

/-- Outcome of `query_knowledge_base`: the `DATA_MISSING` dictionary or the
`SUCCESS` dictionary (status, template, confidence, matched keywords). -/
inductive MatchOutcome where
  | dataMissing (message recommendation confidence : String)
  | success (template : Template) (confidence : String) (matched_keywords : List String)
deriving DecidableEq

/-- The matcher `query_knowledge_base(user_input, knowledge_base)`: score every
template, sort descending by score, return the head or `DATA_MISSING`. -/
def query_knowledge_base (user_input : String) (templates : List Template) :
    MatchOutcome :=
  match sortByScoreDesc (template_matches (pyLower user_input.data) templates) with
  | [] =>
      .dataMissing "I don\x27t have enough information to diagnose this specific issue."
        "Book a diagnostic scan with our mobile mechanic for proper assessment." "N/A"
  | best :: _ => .success best.template best.template.confidence best.matched_keywords

/-! ## Matcher lemmas -/

theorem template_matches_cons (uil : List Char) (t : Template) (ts : List Template) :
    template_matches uil (t :: ts) =
      if 0 < match_score uil t then
        ⟨t, match_score uil t, matched_keywords uil t⟩ :: template_matches uil ts
      else template_matches uil ts := by
  by_cases h : 0 < match_score uil t <;>
    simp [template_matches, List.filterMap_cons, h]

theorem insertByScore_ne_nil (x : TemplateMatch) (l : List TemplateMatch) :
    insertByScore x l ≠ [] := by
  cases l with
  | nil => simp [insertByScore]
  | cons y ys => simp only [insertByScore]; split <;> simp

theorem sortByScoreDesc_eq_nil_iff (l : List TemplateMatch) :
    sortByScoreDesc l = [] ↔ l = [] := by
  cases l with
  | nil => simp [sortByScoreDesc]
  | cons x xs =>
    simp only [sortByScoreDesc]
    constructor
    · intro hins; exact absurd hins (insertByScore_ne_nil x _)
    · intro hc; cases hc

theorem mem_insertByScore {m x : TemplateMatch} {l : List TemplateMatch} :
    m ∈ insertByScore x l ↔ m = x ∨ m ∈ l := by
  induction l with
  | nil => simp [insertByScore]
  | cons y ys ih =>
    simp only [insertByScore]
    split
    · simp [List.mem_cons]
    · simp only [List.mem_cons, ih]
      tauto

theorem mem_sortByScoreDesc {m : TemplateMatch} {l : List TemplateMatch} :
    m ∈ sortByScoreDesc l ↔ m ∈ l := by
  induction l with
  | nil => simp [sortByScoreDesc]
  | cons x xs ih =>
    simp only [sortByScoreDesc, mem_insertByScore, ih, List.mem_cons]

/-- The maximal score in a list of template matches (0 for the empty list). -/
def maxScore (l : List TemplateMatch) : ℕ := l.foldr (fun m acc => max m.score acc) 0

theorem score_le_maxScore {m : TemplateMatch} {l : List TemplateMatch} (h : m ∈ l) :
    m.score ≤ maxScore l := by
  induction l with
  | nil => cases h
  | cons x xs ih =>
    rcases List.mem_cons.mp h with rfl | h'
    · exact le_max_left _ _
    · exact le_trans (ih h') (le_max_right _ _)

theorem sortByScoreDesc_head? (l : List TemplateMatch) :
    (sortByScoreDesc l).head? = l.find? (fun m => decide (maxScore l ≤ m.score)) := by
  induction l with
  | nil => rfl
  | cons x xs ih =>
    cases hs : sortByScoreDesc xs with
    | nil =>
      have hxs : xs = [] := (sortByScoreDesc_eq_nil_iff xs).mp hs
      subst hxs
      simp [sortByScoreDesc, insertByScore, maxScore, List.find?]
    | cons b t =>
      have hbmem : b ∈ xs := mem_sortByScoreDesc.mp (by rw [hs]; exact List.mem_cons_self b t)
      have hfind : xs.find? (fun m => decide (maxScore xs ≤ m.score)) = some b := by
        rw [← ih, hs]; rfl
      have hpb := List.find?_some hfind
      have hble : maxScore xs ≤ b.score := of_decide_eq_true hpb
      have hbge : b.score ≤ maxScore xs := score_le_maxScore hbmem
      rw [show sortByScoreDesc (x :: xs) = insertByScore x (sortByScoreDesc xs) from rfl, hs]
      by_cases hxb : b.score ≤ x.score
      · have hmaxle : maxScore xs ≤ x.score := le_trans hble hxb
        have hple : maxScore (x :: xs) ≤ x.score := by
          rw [show maxScore (x :: xs) = max x.score (maxScore xs) from rfl]
          exact max_le (le_refl _) hmaxle
        simp [insertByScore, hxb, List.find?, hple]
      · have hlt : x.score < b.score := Nat.lt_of_not_le hxb
        have hxsgt : x.score < maxScore xs := lt_of_lt_of_le hlt hbge
        have hmax : maxScore (x :: xs) = maxScore xs := max_eq_right (le_of_lt hxsgt)
        have hnot : ¬ (maxScore (x :: xs) ≤ x.score) := by
          rw [hmax]; exact Nat.not_le.mpr hxsgt
        have hnot2 : ¬ (maxScore xs ≤ x.score) := Nat.not_le.mpr hxsgt
        simp [insertByScore, hxb, List.find?, hnot, hnot2, hmax, hfind]

/-- The maximal `match_score` over a template list (0 for the empty list). -/
def best_score (uil : List Char) (ts : List Template) : ℕ :=
  ts.foldr (fun t acc => max (match_score uil t) acc) 0

theorem score_le_best_score {uil : List Char} {u : Template} {ts : List Template}
    (h : u ∈ ts) : match_score uil u ≤ best_score uil ts := by
  induction ts with
  | nil => cases h
  | cons x xs ih =>
    rcases List.mem_cons.mp h with rfl | h'
    · exact le_max_left _ _
    · exact le_trans (ih h') (le_max_right _ _)

/-- Modelled from the spec, selection rule: scan the catalog in insertion order
and return the first template attaining the maximal score ("ties are broken by
catalog insertion order — first-defined template wins"). -/
def spec_first_best (uil : List Char) (ts : List Template) : Option Template :=
  ts.find? (fun t => decide (best_score uil ts ≤ match_score uil t))

theorem maxScore_template_matches (uil : List Char) :
    ∀ ts : List Template, maxScore (template_matches uil ts) = best_score uil ts := by
  intro ts
  induction ts with
  | nil => rfl
  | cons t ts' ih =>
    rw [template_matches_cons]
    by_cases h0 : 0 < match_score uil t
    · rw [if_pos h0]
      show max (match_score uil t) (maxScore (template_matches uil ts')) = _
      rw [ih]; rfl
    · rw [if_neg h0]
      have hz : match_score uil t = 0 := Nat.eq_zero_of_not_pos h0
      show maxScore (template_matches uil ts') = max (match_score uil t) (best_score uil ts')
      rw [ih, hz, Nat.zero_max]

theorem mem_template_matches {uil : List Char} {m : TemplateMatch} {ts : List Template}
    (h : m ∈ template_matches uil ts) : 0 < m.score := by
  induction ts with
  | nil => cases h
  | cons t ts' ih =>
    rw [template_matches_cons] at h
    by_cases h0 : 0 < match_score uil t
    · rw [if_pos h0] at h
      rcases List.mem_cons.mp h with rfl | h'
      · exact h0
      · exact ih h'
    · rw [if_neg h0] at h
      exact ih h

theorem find?_template_matches (uil : List Char) (B : ℕ) (hB : 0 < B) :
    ∀ ts : List Template,
      (template_matches uil ts).find? (fun m => decide (B ≤ m.score)) =
        (ts.find? (fun t => decide (B ≤ match_score uil t))).map
          (fun t => ⟨t, match_score uil t, matched_keywords uil t⟩) := by
  intro ts
  induction ts with
  | nil => rfl
  | cons t ts' ih =>
    rw [template_matches_cons]
    by_cases hBs : B ≤ match_score uil t
    · have h0 : 0 < match_score uil t := lt_of_lt_of_le hB hBs
      rw [if_pos h0]
      simp [List.find?, hBs]
    · by_cases h0 : 0 < match_score uil t
      · rw [if_pos h0]
        simp [List.find?, hBs, ih]
      · rw [if_neg h0]
        simp [List.find?, hBs, ih]

/-- C1. For every input text with at least one scoring template, the matcher
returns exactly the template selected by the stable first-match-wins scan of the spec
(`spec_first_best`): the first template, in catalog insertion order, attaining the
maximal score. In particular, when two templates tie at the maximal score the one
defined earlier in the catalog wins, so the selection over the score-sorted
candidate list is stable with respect to catalog order. -/
theorem c1_tie_break_by_catalog_order (templates : List Template) (user_input : String)
    (h : (template_matches (pyLower user_input.data) templates).isEmpty = false) :
    ∃ t : Template,
      spec_first_best (pyLower user_input.data) templates = some t ∧
      query_knowledge_base user_input templates =
        .success t t.confidence (matched_keywords (pyLower user_input.data) t) ∧
      0 < match_score (pyLower user_input.data) t ∧
      ∀ u ∈ templates,
        match_score (pyLower user_input.data) u ≤ match_score (pyLower user_input.data) t := by
  have hMne : template_matches (pyLower user_input.data) templates ≠ [] := by
    intro hnil
    rw [hnil] at h
    cases h
  obtain ⟨m, hm⟩ : ∃ m, m ∈ template_matches (pyLower user_input.data) templates := by
    cases hMe : template_matches (pyLower user_input.data) templates with
    | nil => exact absurd hMe hMne
    | cons a l => exact ⟨a, hMe ▸ List.mem_cons_self a l⟩
  have hpos : 0 < maxScore (template_matches (pyLower user_input.data) templates) :=
    lt_of_lt_of_le (mem_template_matches hm) (score_le_maxScore hm)
  have hbest : maxScore (template_matches (pyLower user_input.data) templates) =
      best_score (pyLower user_input.data) templates :=
    maxScore_template_matches (pyLower user_input.data) templates
  cases hsort : sortByScoreDesc (template_matches (pyLower user_input.data) templates) with
  | nil => exact absurd ((sortByScoreDesc_eq_nil_iff _).mp hsort) hMne
  | cons b rest =>
    have hhead : (template_matches (pyLower user_input.data) templates).find?
        (fun m => decide (maxScore (template_matches (pyLower user_input.data) templates) ≤ m.score)) = some b := by
      rw [← sortByScoreDesc_head?, hsort]
      rfl
    have hcorr := find?_template_matches (pyLower user_input.data)
      (maxScore (template_matches (pyLower user_input.data) templates)) hpos templates
    rw [hhead] at hcorr
    cases hft : templates.find? (fun t => decide
        (maxScore (template_matches (pyLower user_input.data) templates) ≤
          match_score (pyLower user_input.data) t)) with
    | none =>
      rw [hft] at hcorr
      cases hcorr
    | some t =>
      rw [hft] at hcorr
      have hbt : b = ⟨t, match_score (pyLower user_input.data) t,
          matched_keywords (pyLower user_input.data) t⟩ := by
        injection hcorr
      have hpt := List.find?_some hft
      have hlet : maxScore (template_matches (pyLower user_input.data) templates) ≤
          match_score (pyLower user_input.data) t := of_decide_eq_true hpt
      refine ⟨t, ?_, ?_, ?_, ?_⟩
      · rw [spec_first_best, ← hbest]
        exact hft
      · show (match sortByScoreDesc (template_matches (pyLower user_input.data) templates) with
          | [] => MatchOutcome.dataMissing
              "I don\x27t have enough information to diagnose this specific issue."
              "Book a diagnostic scan with our mobile mechanic for proper assessment." "N/A"
          | best :: _ => MatchOutcome.success best.template best.template.confidence
              best.matched_keywords) = _
        rw [hsort, hbt]
      · exact lt_of_lt_of_le hpos hlet
      · intro u hu
        exact le_trans (score_le_best_score hu) (hbest ▸ hlet)

/-- Witness for C1 at a concrete input that gives the maximal score 1 both to
`battery_dead` (catalog position 1) and to `car_wont_start_fuel` (catalog
position 19). -/
theorem c1_tie_break_witness :
    (template_matches (pyLower "won\x27t start".data) diagnostic_templates).isEmpty = false ∧
    (∃ t : Template,
      spec_first_best (pyLower "won\x27t start".data) diagnostic_templates = some t ∧
      query_knowledge_base "won\x27t start" diagnostic_templates =
        .success t t.confidence (matched_keywords (pyLower "won\x27t start".data) t) ∧
      0 < match_score (pyLower "won\x27t start".data) t ∧
      ∀ u ∈ diagnostic_templates,
        match_score (pyLower "won\x27t start".data) u ≤
          match_score (pyLower "won\x27t start".data) t) :=
  ⟨rfl, c1_tie_break_by_catalog_order diagnostic_templates "won\x27t start" rfl⟩

/-- C5. For every free text of which no registered template keyword is a
case-insensitive substring, the matcher returns the `DATA_MISSING` outcome with
its message and book-a-diagnostic-scan recommendation, and never a template. -/
theorem c5_no_match_data_missing (templates : List Template) (user_input : String)
    (h : templates.all (fun t => t.keywords.all
      (fun k => !(isSubstring (pyLower k.data) (pyLower user_input.data)))) = true) :
    query_knowledge_base user_input templates =
      .dataMissing "I don\x27t have enough information to diagnose this specific issue."
        "Book a diagnostic scan with our mobile mechanic for proper assessment." "N/A" := by
  have hnil : template_matches (pyLower user_input.data) templates = [] := by
    induction templates with
    | nil => rfl
    | cons t ts ih =>
      rw [List.all_cons, Bool.and_eq_true] at h
      rw [template_matches_cons, if_neg]
      · exact ih h.2
      · have hmk : matched_keywords (pyLower user_input.data) t = [] := by
          rw [matched_keywords, List.filter_eq_nil_iff]
          intro k hk
          have hkf := List.all_eq_true.mp h.1 k hk
          simp only [Bool.not_eq_true'] at hkf
          simp [hkf]
        rw [match_score, hmk]
        simp
  show (match sortByScoreDesc (template_matches (pyLower user_input.data) templates) with
      | [] => MatchOutcome.dataMissing
          "I don\x27t have enough information to diagnose this specific issue."
          "Book a diagnostic scan with our mobile mechanic for proper assessment." "N/A"
      | best :: _ => MatchOutcome.success best.template best.template.confidence
          best.matched_keywords) = _
  rw [hnil]
  rfl

/-- Witness for C5 at the concrete input "hello", of which no catalog keyword is a
substring. -/
theorem c5_no_match_witness :
    (diagnostic_templates.all (fun t => t.keywords.all
      (fun k => !(isSubstring (pyLower k.data) (pyLower "hello".data)))) = true) ∧
    query_knowledge_base "hello" diagnostic_templates =
      .dataMissing "I don\x27t have enough information to diagnose this specific issue."
        "Book a diagnostic scan with our mobile mechanic for proper assessment." "N/A" :=
  ⟨rfl, c5_no_match_data_missing diagnostic_templates "hello" rfl⟩

/-! ## Pricing matrix (`load_pricing_matrix`) -/

structure ZoneData where
  multiplier : ℚ
  areas : List String

/-- The `zones` table: premium / middle / budget fare multipliers. -/
def zones : List (String × ZoneData) := [
  ("premium", ⟨1.2, ["Karen", "Westlands", "Runda", "Lavington", "Kileleshwa", "Muthaiga", "Spring Valley"]⟩),
  ("middle", ⟨1.0, ["South C", "South B", "Kilimani", "Parklands", "Langata", "Ngong Road", "Donholm", "Embakasi", "Kasarani"]⟩),
  ("budget", ⟨0.85, ["Kibera", "Eastlands", "Githurai", "Kayole", "Kawangware", "Mathare", "Umoja", "Dandora"]⟩)]

/-- One road of the `road_network` table. The two keys of the
`traffic_multiplier` dict are the fields `traffic_peak` / `traffic_normal`. -/
structure RoadData where
  direction : String
  coverage_km : ℤ
  estates : List (String × List String)
  boda_pricing : List (String × (ℤ × ℤ))
  traffic_peak : ℚ
  traffic_normal : ℚ
  notes : String

def mombasa_road : RoadData := ⟨"Southeast", 25,
  [("0-5km", ["Industrial Area", "South B", "South C", "Imara Daima"]),
   ("5-10km", ["Mlolongo Gateway", "Syokimau", "Kitengela Gate"]),
   ("10-15km", ["Athi River (near)", "Mlolongo Town"]),
   ("15-25km", ["Kitengela", "Kajiado (outer limit)"])],
  [("0-5km", (150, 250)), ("5-10km", (300, 400)), ("10-15km", (500, 600)), ("15-25km", (700, 800))],
  1.5, 1.0, "Heavy truck traffic. Peak hours extremely congested."⟩

def waiyaki_way : RoadData := ⟨"Northwest", 25,
  [("0-5km", ["Westlands", "Parklands", "Mountain View", "Spring Valley"]),
   ("5-10km", ["Kangemi", "Regen", "Uthiru"]),
   ("10-15km", ["Kinoo", "Kikuyu"]),
   ("15-25km", ["Limuru Road (outer limit)"])],
  [("0-5km", (150, 250)), ("5-10km", (300, 400)), ("10-15km", (500, 600)), ("15-25km", (700, 800))],
  1.6, 1.0, "Notorious for traffic jams. Add 30-60 mins during peak hours."⟩

def ngong_road : RoadData := ⟨"Southwest", 25,
  [("0-5km", ["Kilimani", "Hurlingham", "Kileleshwa", "Lavington"]),
   ("5-10km", ["Karen", "Runda", "Adams Arcade", "Junction"]),
   ("10-15km", ["Ngong Town", "Kibiko"]),
   ("15-25km", ["Rongai", "Kiserian (outer limit)"])],
  [("0-5km", (150, 250)), ("5-10km", (300, 400)), ("10-15km", (500, 600)), ("15-25km", (700, 800))],
  1.4, 1.0, "Good road condition. Premium areas along this route."⟩

def thika_road : RoadData := ⟨"Northeast", 25,
  [("0-5km", ["Muthaiga", "Parklands", "Eastleigh", "Pangani"]),
   ("5-10km", ["Kasarani", "Githurai 44", "Zimmerman"]),
   ("10-15km", ["Githurai 45", "Kahawa West", "Kahawa Sukari"]),
   ("15-25km", ["Ruiru", "Juja (outer limit)"])],
  [("0-5km", (150, 250)), ("5-10km", (300, 400)), ("10-15km", (500, 600)), ("15-25km", (700, 800))],
  1.3, 1.0, "Superhighway but still congested at exits. Matatu traffic."⟩

def jogoo_road : RoadData := ⟨"East", 25,
  [("0-5km", ["Makadara", "Kaloleni", "Shauri Moyo"]),
   ("5-10km", ["Buruburu", "Umoja", "Donholm"]),
   ("10-15km", ["Komarock", "Kayole", "Mihang\x27o"]),
   ("15-25km", ["Ruai", "Kamulu (outer limit)"])],
  [("0-5km", (150, 200)), ("5-10km", (250, 350)), ("10-15km", (400, 500)), ("15-25km", (600, 700))],
  1.3, 1.0, "Budget-friendly areas. Lower boda costs due to competition."⟩

def langata_road : RoadData := ⟨"South", 25,
  [("0-5km", ["Kilimani", "Nairobi West", "Lang\x27ata"]),
   ("5-10km", ["Karen", "Ongata Rongai"]),
   ("10-15km", ["Tuala", "Kiserian"]),
   ("15-25km", ["Ngong (outer limit)"])],
  [("0-5km", (150, 250)), ("5-10km", (300, 400)), ("10-15km", (500, 600)), ("15-25km", (700, 800))],
  1.3, 1.0, "Mix of premium (Karen) and budget (Rongai) areas."⟩

def outer_ring_road : RoadData := ⟨"Circular", 15,
  [("0-5km", ["Enterprise Road", "Mombasa Road Junction", "Embakasi"]),
   ("5-10km", ["Fedha", "Pipeline", "Donholm"]),
   ("10-15km", ["Utawala", "Mihang\x27o", "Ruai Gate"])],
  [("0-5km", (150, 250)), ("5-10km", (300, 400)), ("10-15km", (500, 600))],
  1.4, 1.0, "Connects major roads. Good for cross-town navigation."⟩

def eastern_bypass : RoadData := ⟨"North-South (Eastern side)", 20,
  [("0-5km", ["Embakasi", "Donholm", "Buruburu"]),
   ("5-10km", ["Ruai", "Utawala", "Pipeline"]),
   ("10-20km", ["Kamulu", "Joska (outer limit)"])],
  [("0-5km", (150, 250)), ("5-10km", (300, 400)), ("10-20km", (500, 700))],
  1.2, 1.0, "Relatively clear traffic. Good alternative to Thika/Mombasa Roads."⟩

/-- The `road_network` dict, in source insertion order. -/
def road_network : List (String × RoadData) := [
  ("mombasa_road", mombasa_road), ("waiyaki_way", waiyaki_way), ("ngong_road", ngong_road),
  ("thika_road", thika_road), ("jogoo_road", jogoo_road), ("langata_road", langata_road),
  ("outer_ring_road", outer_ring_road), ("eastern_bypass", eastern_bypass)]

structure CarCategoryData where
  multiplier : ℚ
  makes : List String

/-- The `car_categories` table: standard / premium / luxury / exotic multipliers. -/
def car_categories : List (String × CarCategoryData) := [
  ("standard", ⟨1.0, ["Toyota", "Nissan", "Honda", "Mazda", "Mitsubishi", "Suzuki", "Isuzu", "Daihatsu", "Datsun", "Chevrolet (Opel)", "Ford (Ranger, Everest)", "Hyundai", "Kia", "Peugeot", "Renault", "Mahindra", "Tata"]⟩),
  ("premium", ⟨1.4, ["Volkswagen", "Audi", "Subaru", "Volvo", "Jeep", "Land Rover (Defender, Discovery Sport)", "Lexus (RX, NX)", "Infiniti", "Acura", "Mini Cooper", "Alfa Romeo", "Saab"]⟩),
  ("luxury", ⟨1.8, ["BMW", "Mercedes-Benz", "Range Rover", "Porsche", "Jaguar", "Aston Martin", "Bentley", "Rolls-Royce", "Maserati", "Ferrari", "Lamborghini", "McLaren", "Maybach", "Lexus (LS, LX)", "Tesla", "Cadillac"]⟩),
  ("exotic", ⟨2.5, ["Bugatti", "Koenigsegg", "Pagani"]⟩)]

/-- Labor of a `Standard` service: a `[min, max]` list or a single number in the
source table (the isinstance-list check on the labor field). -/
inductive LaborSpec where
  | range (lo hi : ℤ)
  | single (v : ℤ)
deriving DecidableEq

/-- One entry of the `services` dict. The variant is determined in the source by
the special keys (`mobile_callout`, `pick_and_drop`, `towing`), by
by labor being the DIAGNOSIS_REQUIRED marker, and otherwise by the standard
field triple. -/
inductive ServiceEntry where
  | standard (labor : LaborSpec) (parts_range : ℤ × ℤ) (time_mins : ℤ × ℤ) (note : Option String)
  | mobileCallout (flat_fee : ℤ) (boda_range : ℤ × ℤ) (note : String)
  | pickAndDrop (pickup_boda return_boda : ℤ × ℤ) (service_fee : ℤ) (note : String)
  | fixedRange (range : ℤ × ℤ) (note : String)
  | diagnosisRequired (note : Option String)
deriving DecidableEq

/-- The `services` pricing dict, in source insertion order. -/
def services : List (String × ServiceEntry) := [
  ("battery_replacement", .standard (.range 1000 4000) (6500, 28000) (20, 60) (some "Labor varies based on accessibility and connections")),
  ("oil_change", .standard (.range 2000 8000) (2000, 25000) (45, 240) (some "Full service with worn parts replacement costs more")),
  ("brake_pads", .standard (.range 2500 18000) (4000, 20000) (60, 180) (some "Premium cars need higher labor cost")),
  ("diagnostic_scan", .standard (.range 1500 15000) (0, 0) (30, 180) (some "Complex diagnostics (transmission, engine) cost more")),
  ("mobile_callout", .mobileCallout 500 (150, 800) "Flat 500 service fee + boda charge (150 Westlands, 800 Kahawa) + labor + parts"),
  ("pick_and_drop", .pickAndDrop (200, 800) (200, 800) 500 "Boda both ways + 500 service fee. If garage sends driver, cheaper"),
  ("towing", .fixedRange (2500, 25000) "Distance-dependent. Could be more for long distances"),
  ("alternator", .standard (.range 4000 8000) (8000, 15000) (120, 180) none),
  ("starter_motor", .standard (.range 3500 7000) (6000, 12000) (90, 150) none),
  ("radiator", .standard (.range 5000 10000) (8000, 20000) (180, 300) none),
  ("transmission", .diagnosisRequired (some "Too complex to estimate without inspection")),
  ("engine_overhaul", .diagnosisRequired (some "Major work requiring full diagnosis and quote")),
  ("specialty_service", .diagnosisRequired (some "Garage/specialist services need assessment first"))]

/-! ## Road network resolution (`calculate_boda_pricing`) -/

/-- The traffic-multiplier dict lookup keyed by time of day, default 1.0. -/
def traffic_multiplier (r : RoadData) (time_of_day : String) : ℚ :=
  if time_of_day = "peak" then r.traffic_peak
  else if time_of_day = "normal" then r.traffic_normal
  else 1.0

/-- The bidirectional containment test of `calculate_boda_pricing`:
`location_lower in estate.lower() or estate.lower() in location_lower`. -/
def estate_matches (location_lower : List Char) (estate : String) : Bool :=
  isSubstring location_lower (pyLower estate.data) ||
    isSubstring (pyLower estate.data) location_lower

/-- The nested search loop of `calculate_boda_pricing`: the first road and, within
it, the first distance band having an estate that matches the location (both loops
break on the first hit). The data of the matched road rides along, mirroring
how the source re-indexes the road network dict at the matched road name. -/
def findRoadBand (location_lower : List Char) : Option (String × RoadData × String) :=
  road_network.findSome? (fun r =>
    (r.2.estates.findSome? (fun band =>
      if band.2.any (fun e => estate_matches location_lower e) then some band.1 else none)).map
      (fun band => (r.1, r.2, band)))

/-- Result record of `calculate_boda_pricing`. -/
structure BodaInfo where
  boda_cost : ℤ × ℤ
  road : String
  distance_km : String
  traffic_factor : ℚ
  note : String

/-- `calculate_boda_pricing(location, time_of_day, pricing_matrix)`: resolve the
location against the road network, fall back to `[300, 500]` / `"unknown"` when
unmapped, and scale the base price of the matched band by the traffic
multiplier of the road, with truncation to integer. -/
def calculate_boda_pricing (location : String) (time_of_day : String) : BodaInfo :=
  match findRoadBand (pyLower location.data) with
  | none =>
      ⟨(300, 500), "unknown", "estimated 10-15km", 1.0,
       "Location not in coverage map. Using estimated pricing."⟩
  | some (road_name, road_data, band) =>
      let base := ((road_data.boda_pricing.find? (fun p => p.1 == band)).map Prod.snd).getD (300, 500)
      let traffic_mult := traffic_multiplier road_data time_of_day
      ⟨(pyInt ((base.1 : ℚ) * traffic_mult), pyInt ((base.2 : ℚ) * traffic_mult)),
       String.mk (pyTitle (underscoreToSpace road_name.data)), band, traffic_mult,
       road_data.notes⟩

/-! ## Price estimation (`calculate_price_estimate`) -/

/-- The result dictionaries of `calculate_price_estimate`, as a closed sum:
`DIAGNOSIS_REQUIRED`, `mobile_callout` (with and without a location),
`pick_and_drop` (with and without a location), `towing`, and `standard`. -/
inductive PriceEstimate where
  | diagnosisRequired (message note recommendation : String)
  | mobileCalloutLocated (flat_fee : ℤ) (boda_cost : ℤ × ℤ) (total_range : ℤ × ℤ)
      (road : String) (distance : String) (traffic_factor : ℚ) (time_of_day : String)
      (note : String)
  | mobileCalloutGeneric (flat_fee : ℤ) (boda_range : ℤ × ℤ) (note : String)
  | pickAndDropLocated (pickup_boda return_boda : ℤ × ℤ) (service_fee : ℤ)
      (total_range : ℤ × ℤ) (road : String) (distance : String) (traffic_factor : ℚ)
      (time_of_day : String) (note : String)
  | pickAndDropGeneric (pickup_boda return_boda : ℤ × ℤ) (service_fee : ℤ)
      (total_range : ℤ × ℤ) (note : String)
  | towing (range : ℤ × ℤ) (note : String)
  | standard (labor : LaborSpec) (parts_range : Option (ℤ × ℤ)) (total_range : ℤ × ℤ)
      (time_estimate_mins : ℤ × ℤ) (note : Option String)

/-- The zone-multiplier loop of `calculate_price_estimate`: the first zone whose
area list contains the supplied string case-insensitively; silent default 1.0. -/
def zone_multiplier (zone : String) : ℚ :=
  match zones.find? (fun z => z.2.areas.any (fun area => pyLower area.data == pyLower zone.data)) with
  | some z => z.2.multiplier
  | none => 1.0

/-- The car-category loop of `calculate_price_estimate`: the first category whose
make list contains the supplied string case-insensitively; silent default 1.0. -/
def car_multiplier (car_category : String) : ℚ :=
  match car_categories.find? (fun c => c.2.makes.any (fun mk => pyLower mk.data == pyLower car_category.data)) with
  | some c => c.2.multiplier
  | none => 1.0

/-- The `Standard` arithmetic of `calculate_price_estimate`, with the zone and car
multipliers already resolved: labor is scaled by both multipliers per bound, parts
only by the car multiplier (each guarded by `> 0`), and the total upper bound
falls back to the labor upper bound when the computed parts maximum is 0. -/
def standard_estimate (labor : LaborSpec) (parts_range : ℤ × ℤ) (time_mins : ℤ × ℤ)
    (note : Option String) (zone_mult car_mult : ℚ) : PriceEstimate :=
  let labor_cost : LaborSpec :=
    match labor with
    | .range lo hi =>
        .range (pyInt ((lo : ℚ) * zone_mult * car_mult)) (pyInt ((hi : ℚ) * zone_mult * car_mult))
    | .single v => .single (pyInt ((v : ℚ) * zone_mult * car_mult))
  let parts_min : ℤ := if 0 < parts_range.1 then pyInt ((parts_range.1 : ℚ) * car_mult) else 0
  let parts_max : ℤ := if 0 < parts_range.2 then pyInt ((parts_range.2 : ℚ) * car_mult) else 0
  let total_range : ℤ × ℤ :=
    match labor_cost with
    | .range l0 l1 => (l0 + parts_min, if 0 < parts_max then l1 + parts_max else l1)
    | .single v => (v + parts_min, if 0 < parts_max then v + parts_max else v)
  .standard labor_cost (if 0 < parts_max then some (parts_min, parts_max) else none)
    total_range time_mins note

/-- `calculate_price_estimate(service_key, zone, car_category, pricing_matrix,
location, time_of_day)`: `None` for an unknown service; `DIAGNOSIS_REQUIRED`
first; then the special `mobile_callout` / `pick_and_drop` / `towing` branches;
otherwise the standard zone/car-multiplier computation. -/
def calculate_price_estimate (service_key zone car_category : String)
    (location : Option String) (time_of_day : String) : Option PriceEstimate :=
  match services.find? (fun s => s.1 == service_key) with
  | none => none
  | some s =>
    match s.2 with
    | .diagnosisRequired note =>
        some (.diagnosisRequired
          "This service requires professional diagnosis before pricing can be determined."
          (note.getD "") "Book a diagnostic scan first (KES 1,500-15,000)")
    | .mobileCallout flat_fee boda_range note =>
        match location with
        | some loc =>
            let boda_info := calculate_boda_pricing loc time_of_day
            some (.mobileCalloutLocated flat_fee boda_info.boda_cost
              (flat_fee + boda_info.boda_cost.1, flat_fee + boda_info.boda_cost.2)
              boda_info.road boda_info.distance_km boda_info.traffic_factor time_of_day
              (note ++ " | " ++ boda_info.note))
        | none => some (.mobileCalloutGeneric flat_fee boda_range note)
    | .pickAndDrop pickup_boda return_boda service_fee note =>
        match location with
        | some loc =>
            let boda_info := calculate_boda_pricing loc time_of_day
            some (.pickAndDropLocated boda_info.boda_cost boda_info.boda_cost service_fee
              (boda_info.boda_cost.1 + boda_info.boda_cost.1 + service_fee,
               boda_info.boda_cost.2 + boda_info.boda_cost.2 + service_fee)
              boda_info.road boda_info.distance_km boda_info.traffic_factor time_of_day
              (note ++ " | " ++ boda_info.note))
        | none =>
            some (.pickAndDropGeneric pickup_boda return_boda service_fee
              (pickup_boda.1 + return_boda.1 + service_fee,
               pickup_boda.2 + return_boda.2 + service_fee) note)
    | .fixedRange range note => some (.towing range note)
    | .standard labor parts_range time_mins note =>
        some (standard_estimate labor parts_range time_mins note
          (zone_multiplier zone) (car_multiplier car_category))

/-! ## Timestamp handling in `diagnose` -/

/-- The time-of-day override of the `diagnose` endpoint (source lines 1508-1520).
`datetime.fromisoformat` is abstracted by its outcome: `none` means no
`timestamp` field was supplied, `some none` a field that fails to parse (the bare
`except: pass` swallows the error and keeps the current value), and
`some (some h)` a field that parses with local hour `h`; in that case
`time_of_day` is overwritten with `"peak"` exactly when `7 <= h < 9` or
`17 <= h < 19`, and otherwise left at whatever was supplied or defaulted. -/
def effective_time_of_day (time_of_day : String) (timestamp : Option (Option ℕ)) : String :=
  match timestamp with
  | none => time_of_day
  | some none => time_of_day
  | some (some hour) =>
      if (7 ≤ hour ∧ hour < 9) ∨ (17 ≤ hour ∧ hour < 19) then "peak" else time_of_day

/-! ## Road-network lemmas -/

theorem isPrefixOf_self (l : List Char) : l.isPrefixOf l = true := by
  induction l with
  | nil => rfl
  | cons c t ih => simp [List.isPrefixOf, ih]

theorem isSubstring_self (l : List Char) : isSubstring l l = true := by
  cases l with
  | nil => rfl
  | cons c t => simp [isSubstring, isPrefixOf_self]

theorem estate_matches_self (e : String) : estate_matches (pyLower e.data) e = true := by
  simp [estate_matches, isSubstring_self]

theorem findSome?_isSome_of_mem {α β : Type} (l : List α) (f : α → Option β) (a : α)
    (ha : a ∈ l) (hf : (f a).isSome) : (l.findSome? f).isSome := by
  induction l with
  | nil => cases ha
  | cons x xs ih =>
    cases hfx : f x with
    | some b => rw [List.findSome?_cons_of_isSome _ (by rw [hfx]; rfl), hfx]; rfl
    | none =>
      rw [List.findSome?_cons_of_isNone _ (by rw [hfx]; rfl)]
      rcases List.mem_cons.mp ha with rfl | ha'
      · rw [hfx] at hf; cases hf
      · exact ih ha'

/-- C2 (counterexample). The estate "Kitengela" is declared under `mombasa_road`
in the "15-25km" band, but `resolve` returns the "5-10km" band: the bidirectional
substring test matches "Kitengela" against the earlier-enumerated estate
"Kitengela Gate" of the "5-10km" band first. -/
theorem c2_band_coverage_counterexample :
    ("15-25km", ["Kitengela", "Kajiado (outer limit)"]) ∈ mombasa_road.estates ∧
    ("mombasa_road", mombasa_road) ∈ road_network ∧
    (calculate_boda_pricing "Kitengela" "normal").distance_km = "5-10km" ∧
    ("5-10km" : String) ≠ "15-25km" :=
  ⟨by decide, List.Mem.head _, rfl, by decide⟩

/-- C2 (amended). Every estate listed in the road table resolves to a mapped road
and band — the search returns the first road/band/estate triple in enumeration
order whose estate entry bidirectionally matches the name, never the fallback —
but that triple need not be the declaring one when the name collides with an
earlier-enumerated estate entry. -/
theorem c2_band_coverage_amended (rn : String) (rd : RoadData)
    (hroad : (rn, rd) ∈ road_network) (band : String) (lst : List String)
    (hband : (band, lst) ∈ rd.estates) (e : String) (he : e ∈ lst) :
    (findRoadBand (pyLower e.data)).isSome = true := by
  have hany : lst.any (fun x => estate_matches (pyLower e.data) x) = true :=
    List.any_eq_true.mpr ⟨e, he, estate_matches_self e⟩
  have hinner : (rd.estates.findSome? (fun b =>
      if b.2.any (fun x => estate_matches (pyLower e.data) x) then some b.1 else none)).isSome := by
    apply findSome?_isSome_of_mem _ _ (band, lst) hband
    simp [hany]
  have houter : (road_network.findSome? (fun r =>
      (r.2.estates.findSome? (fun b =>
        if b.2.any (fun x => estate_matches (pyLower e.data) x) then some b.1 else none)).map
        (fun b => (r.1, r.2, b)))).isSome := by
    apply findSome?_isSome_of_mem _ _ (rn, rd) hroad
    simpa using hinner
  exact houter

/-- Witness for C2 (amended) at the estate "Industrial Area", declared under
`mombasa_road` in the "0-5km" band. -/
theorem c2_band_coverage_amended_witness :
    (("mombasa_road", mombasa_road) ∈ road_network ∧
      ("0-5km", ["Industrial Area", "South B", "South C", "Imara Daima"]) ∈ mombasa_road.estates ∧
      "Industrial Area" ∈ ["Industrial Area", "South B", "South C", "Imara Daima"]) ∧
    (findRoadBand (pyLower "Industrial Area".data)).isSome = true :=
  ⟨⟨List.Mem.head _, by decide, by decide⟩,
    c2_band_coverage_amended "mombasa_road" mombasa_road (List.Mem.head _)
      "0-5km" ["Industrial Area", "South B", "South C", "Imara Daima"] (by decide)
      "Industrial Area" (by decide)⟩

/-! ## Concrete pricing scenarios -/

/-- Projection: the `parts_range` reported by a `standard` estimate. -/
def parts_range_of : PriceEstimate → Option (ℤ × ℤ)
  | .standard _ p _ _ _ => p
  | _ => none

/-- C3. Scenario B: battery replacement from Westlands with a Toyota at normal
time resolves zone multiplier 1.2 (premium) and car multiplier 1.0 (standard),
giving labor [1200, 4800], parts [6500, 28000] and total [7700, 32800]; moreover
the reported parts range of any standard estimate never depends on the zone
multiplier (the zone multiplier is applied to labor only, parts are scaled only
by the car multiplier). -/
theorem c3_scenario_b_battery_westlands :
    zone_multiplier "Westlands" = 1.2 ∧
    car_multiplier "Toyota" = 1.0 ∧
    calculate_price_estimate "battery_replacement" "Westlands" "Toyota" none "normal" =
      some (.standard (.range 1200 4800) (some (6500, 28000)) (7700, 32800) (20, 60)
        (some "Labor varies based on accessibility and connections")) ∧
    (∀ (labor : LaborSpec) (parts time : ℤ × ℤ) (note : Option String) (zm zm' cm : ℚ),
      parts_range_of (standard_estimate labor parts time note zm cm) =
        parts_range_of (standard_estimate labor parts time note zm' cm)) := by
  refine ⟨rfl, rfl, ?_, fun _ _ _ _ _ _ _ => rfl⟩
  have h0 : calculate_price_estimate "battery_replacement" "Westlands" "Toyota" none "normal" =
      some (standard_estimate (.range 1000 4000) (6500, 28000) (20, 60)
        (some "Labor varies based on accessibility and connections") 1.2 1.0) := rfl
  have h1 : pyInt (1200 : ℚ) = 1200 := by
    rw [pyInt_of_nonneg _ (by norm_num)]; norm_num
  have h2 : pyInt (4800 : ℚ) = 4800 := by
    rw [pyInt_of_nonneg _ (by norm_num)]; norm_num
  have h3 : pyInt (6500 : ℚ) = 6500 := by
    rw [pyInt_of_nonneg _ (by norm_num)]; norm_num
  have h4 : pyInt (28000 : ℚ) = 28000 := by
    rw [pyInt_of_nonneg _ (by norm_num)]; norm_num
  rw [h0]
  norm_num [standard_estimate, h1, h2, h3, h4]

/-- C4. Scenario D: a mobile callout from "Kahawa Sukari" at peak time resolves
to the "10-15km" band of Thika Road with base boda range [500, 600] and traffic
factor 1.3, giving adjusted boda [650, 780] and total [1150, 1280]; the flat 500
fee is never scaled — for every location and time of day the totals are exactly
500 plus the (traffic-adjusted) boda bounds. -/
theorem c4_scenario_d_mobile_callout_kahawa :
    thika_road.boda_pricing.find? (fun p => p.1 == "10-15km") = some ("10-15km", (500, 600)) ∧
    calculate_boda_pricing "Kahawa Sukari" "peak" =
      ⟨(650, 780), "Thika Road", "10-15km", 1.3,
       "Superhighway but still congested at exits. Matatu traffic."⟩ ∧
    (∀ z c : String, calculate_price_estimate "mobile_callout" z c (some "Kahawa Sukari") "peak" =
      some (.mobileCalloutLocated 500 (650, 780) (1150, 1280) "Thika Road" "10-15km" 1.3 "peak"
        "Flat 500 service fee + boda charge (150 Westlands, 800 Kahawa) + labor + parts | Superhighway but still congested at exits. Matatu traffic.")) ∧
    (∀ z c loc tod : String, calculate_price_estimate "mobile_callout" z c (some loc) tod =
      some (.mobileCalloutLocated 500 (calculate_boda_pricing loc tod).boda_cost
        (500 + (calculate_boda_pricing loc tod).boda_cost.1,
         500 + (calculate_boda_pricing loc tod).boda_cost.2)
        (calculate_boda_pricing loc tod).road (calculate_boda_pricing loc tod).distance_km
        (calculate_boda_pricing loc tod).traffic_factor tod
        ("Flat 500 service fee + boda charge (150 Westlands, 800 Kahawa) + labor + parts" ++
          " | " ++ (calculate_boda_pricing loc tod).note))) := by
  have h650 : pyInt (((500 : ℤ) : ℚ) * 1.3) = 650 := by
    rw [pyInt_of_nonneg _ (by norm_num)]; norm_num
  have h780 : pyInt (((600 : ℤ) : ℚ) * 1.3) = 780 := by
    rw [pyInt_of_nonneg _ (by norm_num)]; norm_num
  have hb : calculate_boda_pricing "Kahawa Sukari" "peak" =
      ⟨(650, 780), "Thika Road", "10-15km", 1.3,
       "Superhighway but still congested at exits. Matatu traffic."⟩ := by
    have hb0 : calculate_boda_pricing "Kahawa Sukari" "peak" =
        ⟨(pyInt (((500 : ℤ) : ℚ) * 1.3), pyInt (((600 : ℤ) : ℚ) * 1.3)),
         "Thika Road", "10-15km", 1.3,
         "Superhighway but still congested at exits. Matatu traffic."⟩ := rfl
    rw [hb0, h650, h780]
  refine ⟨rfl, hb, fun z c => ?_, fun z c loc tod => rfl⟩
  have h2 : calculate_price_estimate "mobile_callout" z c (some "Kahawa Sukari") "peak" =
      some (.mobileCalloutLocated 500 (calculate_boda_pricing "Kahawa Sukari" "peak").boda_cost
        (500 + (calculate_boda_pricing "Kahawa Sukari" "peak").boda_cost.1,
         500 + (calculate_boda_pricing "Kahawa Sukari" "peak").boda_cost.2)
        (calculate_boda_pricing "Kahawa Sukari" "peak").road
        (calculate_boda_pricing "Kahawa Sukari" "peak").distance_km
        (calculate_boda_pricing "Kahawa Sukari" "peak").traffic_factor "peak"
        ("Flat 500 service fee + boda charge (150 Westlands, 800 Kahawa) + labor + parts" ++
          " | " ++ (calculate_boda_pricing "Kahawa Sukari" "peak").note)) := rfl
  rw [h2, hb]
  rfl

/-- C6. The "transmission" service is `DIAGNOSIS_REQUIRED`: the estimate is the
fixed advisory result, with no numeric computation, identical for every zone,
car make, location and time of day. -/
theorem c6_transmission_diagnosis_required (z c : String) (loc : Option String) (tod : String) :
    calculate_price_estimate "transmission" z c loc tod =
      some (.diagnosisRequired
        "This service requires professional diagnosis before pricing can be determined."
        "Too complex to estimate without inspection"
        "Book a diagnostic scan first (KES 1,500-15,000)") := rfl

/-- C7 (counterexample). With an explicitly supplied `time_of_day = "peak"` and a
parseable timestamp whose hour (12) is outside both peak windows, the code keeps
"peak", whereas the claim says the time of day is left at "normal". -/
theorem c7_timestamp_counterexample :
    effective_time_of_day "peak" (some (some 12)) = "peak" ∧ ("peak" : String) ≠ "normal" :=
  ⟨rfl, by decide⟩

/-- C7 (amended). A parseable timestamp overrides the time of day to "peak"
exactly when the hour lies in [7,9) or [17,19); otherwise the explicitly supplied
`time_of_day` (or the default "normal") is kept unchanged — not forced back to
"normal". An unparseable or absent timestamp is silently ignored. -/
theorem c7_timestamp_amended :
    (∀ (tod : String) (hour : ℕ), effective_time_of_day tod (some (some hour)) =
      if (7 ≤ hour ∧ hour < 9) ∨ (17 ≤ hour ∧ hour < 19) then "peak" else tod) ∧
    (∀ tod : String, effective_time_of_day tod (some none) = tod) ∧
    (∀ tod : String, effective_time_of_day tod none = tod) :=
  ⟨fun _ _ => rfl, fun _ => rfl, fun _ => rfl⟩

/-- C10. The empty location string is a substring of every estate name, so the
bidirectional containment test matches the very first enumerated estate
("Industrial Area" of `mombasa_road`, band "0-5km") instead of the fallback: for
every time of day, resolving the empty string returns the "0-5km" band of
Mombasa Road with base range [150, 250] scaled by the traffic multiplier of
Mombasa Road for that time. -/
theorem c10_empty_location_matches_first_estate :
    estate_matches (pyLower "".data) "Industrial Area" = true ∧
    findRoadBand (pyLower "".data) = some ("mombasa_road", mombasa_road, "0-5km") ∧
    (∀ tod : String, calculate_boda_pricing "" tod =
      ⟨(pyInt (((150 : ℤ) : ℚ) * traffic_multiplier mombasa_road tod),
        pyInt (((250 : ℤ) : ℚ) * traffic_multiplier mombasa_road tod)),
       "Mombasa Road", "0-5km", traffic_multiplier mombasa_road tod,
       "Heavy truck traffic. Peak hours extremely congested."⟩) ∧
    (∀ tod : String, (calculate_boda_pricing "" tod).road ≠ "unknown") :=
  ⟨rfl, rfl, fun _ => rfl,
    fun _ h => (by decide : ¬ (("Mombasa Road" : String) = "unknown")) h⟩

/-! ## Range invariants (C9) -/

/-- Well-formedness of one catalog pricing entry: every base range has
`min <= max` (and nonnegative labor minimum for standard ranges). -/
def service_entry_ok : ServiceEntry → Bool
  | .standard lab (p1, p2) (t0, t1) _ =>
      (match lab with
       | .range a b => decide (0 ≤ a) && decide (a ≤ b)
       | .single _ => true) && decide (p1 ≤ p2) && decide (t0 ≤ t1)
  | .mobileCallout _ (b1, b2) _ => decide (b1 ≤ b2)
  | .pickAndDrop (a1, a2) (r1, r2) _ _ => decide (a1 ≤ a2) && decide (r1 ≤ r2)
  | .fixedRange (a, b) _ => decide (a ≤ b)
  | .diagnosisRequired _ => true

theorem services_ok : services.all (fun s => service_entry_ok s.2) = true := by decide

/-- Well-formedness of the boda price table of one road. -/
def road_entry_ok (r : RoadData) : Bool :=
  r.boda_pricing.all (fun p => decide (0 ≤ p.2.1) && decide (p.2.1 ≤ p.2.2))

theorem road_network_pricing_ok : road_network.all (fun r => road_entry_ok r.2) = true := by
  decide

theorem road_network_traffic_pos :
    ∀ r ∈ road_network, 0 < r.2.traffic_peak ∧ 0 < r.2.traffic_normal := by
  intro r hr
  simp [road_network] at hr
  rcases hr with rfl | rfl | rfl | rfl | rfl | rfl | rfl | rfl <;>
    exact ⟨by norm_num [mombasa_road, waiyaki_way, ngong_road, thika_road, jogoo_road,
        langata_road, outer_ring_road, eastern_bypass],
      by norm_num [mombasa_road, waiyaki_way, ngong_road, thika_road, jogoo_road,
        langata_road, outer_ring_road, eastern_bypass]⟩

theorem traffic_multiplier_pos (rd : RoadData) (hpk : 0 < rd.traffic_peak)
    (hnm : 0 < rd.traffic_normal) (tod : String) : 0 < traffic_multiplier rd tod := by
  rw [traffic_multiplier]
  split_ifs
  · exact hpk
  · exact hnm
  · norm_num

theorem zone_multiplier_pos (z : String) : 0 < zone_multiplier z := by
  rw [zone_multiplier]
  cases hf : zones.find? (fun z0 => z0.2.areas.any (fun area => pyLower area.data == pyLower z.data)) with
  | none => norm_num
  | some zd =>
    have hmem := List.mem_of_find?_eq_some hf
    simp [zones] at hmem
    rcases hmem with rfl | rfl | rfl <;> norm_num

theorem car_multiplier_pos (c : String) : 0 < car_multiplier c := by
  rw [car_multiplier]
  cases hf : car_categories.find? (fun c0 => c0.2.makes.any (fun mk => pyLower mk.data == pyLower c.data)) with
  | none => norm_num
  | some cd =>
    have hmem := List.mem_of_find?_eq_some hf
    simp [car_categories] at hmem
    rcases hmem with rfl | rfl | rfl | rfl <;> norm_num

/-- The boda cost returned by `calculate_boda_pricing` is a well-formed
nonnegative range for every location and time of day. -/
theorem boda_cost_bounds (loc tod : String) :
    0 ≤ (calculate_boda_pricing loc tod).boda_cost.1 ∧
    (calculate_boda_pricing loc tod).boda_cost.1 ≤ (calculate_boda_pricing loc tod).boda_cost.2 := by
  cases hf : findRoadBand (pyLower loc.data) with
  | none => simp [calculate_boda_pricing, hf]
  | some triple =>
    obtain ⟨rn, rd, band⟩ := triple
    obtain ⟨r, hrmem, hfr⟩ := List.exists_of_findSome?_eq_some hf
    obtain ⟨b0, _, heq⟩ := Option.map_eq_some'.mp hfr
    have hrd : r.2 = rd := congrArg (fun t => t.2.1) heq
    have hm : 0 < traffic_multiplier rd tod := by
      obtain ⟨hpk, hnm⟩ := road_network_traffic_pos r hrmem
      rw [hrd] at hpk hnm
      exact traffic_multiplier_pos rd hpk hnm tod
    have hbase : 0 ≤ (((rd.boda_pricing.find? (fun p => p.1 == band)).map Prod.snd).getD (300, 500)).1 ∧
        (((rd.boda_pricing.find? (fun p => p.1 == band)).map Prod.snd).getD (300, 500)).1 ≤
          (((rd.boda_pricing.find? (fun p => p.1 == band)).map Prod.snd).getD (300, 500)).2 := by
      cases hfind : rd.boda_pricing.find? (fun p => p.1 == band) with
      | none => norm_num
      | some p =>
        have hpmem := List.mem_of_find?_eq_some hfind
        have hokr := List.all_eq_true.mp road_network_pricing_ok r hrmem
        rw [road_entry_ok, hrd] at hokr
        have hokp := List.all_eq_true.mp hokr p hpmem
        rw [Bool.and_eq_true] at hokp
        exact ⟨of_decide_eq_true hokp.1, of_decide_eq_true hokp.2⟩
    simp only [calculate_boda_pricing, hf]
    constructor
    · exact pyInt_nonneg _ (mul_nonneg (by exact_mod_cast hbase.1) hm.le)
    · exact pyInt_mono _ _ (mul_nonneg (by exact_mod_cast hbase.1) hm.le)
        (mul_le_mul_of_nonneg_right (by exact_mod_cast hbase.2) hm.le)

/-- Every numeric range of a price estimate is well-formed (`min <= max`). -/
def ranges_ok : PriceEstimate → Prop
  | .diagnosisRequired _ _ _ => True
  | .mobileCalloutLocated _ boda total _ _ _ _ _ => boda.1 ≤ boda.2 ∧ total.1 ≤ total.2
  | .mobileCalloutGeneric _ boda _ => boda.1 ≤ boda.2
  | .pickAndDropLocated pickup ret _ total _ _ _ _ _ =>
      pickup.1 ≤ pickup.2 ∧ ret.1 ≤ ret.2 ∧ total.1 ≤ total.2
  | .pickAndDropGeneric pickup ret _ total _ =>
      pickup.1 ≤ pickup.2 ∧ ret.1 ≤ ret.2 ∧ total.1 ≤ total.2
  | .towing range _ => range.1 ≤ range.2
  | .standard labor parts total time _ =>
      (match labor with | .range a b => a ≤ b | .single _ => True) ∧
      (match parts with | some p => p.1 ≤ p.2 | none => True) ∧
      total.1 ≤ total.2 ∧ time.1 ≤ time.2

/-- The computed parts bound (with its `> 0` guard) is nonnegative. -/
theorem parts_term_nonneg (p : ℤ) (cm : ℚ) (hcm : 0 ≤ cm) :
    0 ≤ (if 0 < p then pyInt ((p : ℚ) * cm) else 0) := by
  split_ifs with hp
  · exact pyInt_nonneg _ (mul_nonneg (by exact_mod_cast hp.le) hcm)
  · exact le_refl 0

/-- The computed parts bounds are ordered when the base bounds are. -/
theorem parts_terms_le (p1 p2 : ℤ) (cm : ℚ) (hcm : 0 ≤ cm) (hp : p1 ≤ p2) :
    (if 0 < p1 then pyInt ((p1 : ℚ) * cm) else 0) ≤
      (if 0 < p2 then pyInt ((p2 : ℚ) * cm) else 0) := by
  by_cases h1 : 0 < p1
  · rw [if_pos h1, if_pos (lt_of_lt_of_le h1 hp)]
    exact pyInt_mono _ _ (mul_nonneg (by exact_mod_cast h1.le) hcm)
      (mul_le_mul_of_nonneg_right (by exact_mod_cast hp) hcm)
  · rw [if_neg h1]
    exact parts_term_nonneg p2 cm hcm

/-- Well-formedness of the `standard` result shape produced by
`standard_estimate`, with the computed bounds abstracted. -/
theorem ranges_ok_mk_standard (A B PM PX : ℤ) (tm : ℤ × ℤ) (lab : LaborSpec)
    (note : Option String)
    (hlab : match lab with | .range a b => a ≤ b | .single _ => True)
    (hAB : A ≤ B) (hPM : PM ≤ PX) (ht : tm.1 ≤ tm.2) :
    ranges_ok (.standard lab (if 0 < PX then some (PM, PX) else none)
      (A + PM, if 0 < PX then B + PX else B) tm note) := by
  refine ⟨hlab, ?_, ?_, ht⟩
  · split_ifs with h
    · exact hPM
    · trivial
  · split_ifs with h
    · exact add_le_add hAB hPM
    · have hPM0 : PM ≤ 0 := hPM.trans (le_of_not_lt h)
      have h2 := add_le_add hAB hPM0
      simpa using h2

/-- A `standard_estimate` with a well-formed base entry and positive multipliers
has well-formed labor, parts, total and time ranges. -/
theorem standard_estimate_ranges_ok (labor : LaborSpec) (parts time : ℤ × ℤ)
    (note : Option String) (zm cm : ℚ)
    (hlab : match labor with | .range a b => 0 ≤ a ∧ a ≤ b | .single _ => True)
    (hp : parts.1 ≤ parts.2) (ht : time.1 ≤ time.2) (hzm : 0 < zm) (hcm : 0 < cm) :
    ranges_ok (standard_estimate labor parts time note zm cm) := by
  obtain ⟨p1, p2⟩ := parts
  have hpmin_le := parts_terms_le p1 p2 cm hcm.le hp
  cases labor with
  | range a b =>
    obtain ⟨ha, hab⟩ := hlab
    have hlabmono : pyInt ((a : ℚ) * zm * cm) ≤ pyInt ((b : ℚ) * zm * cm) :=
      pyInt_mono _ _ (mul_nonneg (mul_nonneg (by exact_mod_cast ha) hzm.le) hcm.le)
        (mul_le_mul_of_nonneg_right
          (mul_le_mul_of_nonneg_right (by exact_mod_cast hab) hzm.le) hcm.le)
    exact ranges_ok_mk_standard (pyInt ((a : ℚ) * zm * cm)) (pyInt ((b : ℚ) * zm * cm))
      (if 0 < p1 then pyInt ((p1 : ℚ) * cm) else 0)
      (if 0 < p2 then pyInt ((p2 : ℚ) * cm) else 0) time
      (.range (pyInt ((a : ℚ) * zm * cm)) (pyInt ((b : ℚ) * zm * cm))) note
      hlabmono hlabmono hpmin_le ht
  | single v =>
    exact ranges_ok_mk_standard (pyInt ((v : ℚ) * zm * cm)) (pyInt ((v : ℚ) * zm * cm))
      (if 0 < p1 then pyInt ((p1 : ℚ) * cm) else 0)
      (if 0 < p2 then pyInt ((p2 : ℚ) * cm) else 0) time
      (.single (pyInt ((v : ℚ) * zm * cm))) note
      trivial (le_refl _) hpmin_le ht

/-- C9. For every service key, zone string, car make, location and time of day,
every numeric range of a returned estimate (labor, parts, boda, total, time)
satisfies `min <= max`: the catalog base ranges are well-formed (`services_ok`,
`road_network_pricing_ok`) and all zone, car and traffic multipliers are
positive, and both properties survive the integer truncations. -/
theorem c9_ranges_invariant (key zone car : String) (loc : Option String) (tod : String)
    (est : PriceEstimate) (h : calculate_price_estimate key zone car loc tod = some est) :
    ranges_ok est := by
  cases hf : services.find? (fun s => s.1 == key) with
  | none =>
    rw [calculate_price_estimate, hf] at h
    cases h
  | some s =>
    have hmem := List.mem_of_find?_eq_some hf
    have hok := List.all_eq_true.mp services_ok s hmem
    obtain ⟨k, entry⟩ := s
    cases entry with
    | diagnosisRequired note =>
      simp only [calculate_price_estimate, hf, Option.some.injEq] at h
      subst h
      trivial
    | mobileCallout flat_fee boda_range note =>
      obtain ⟨b1, b2⟩ := boda_range
      simp only [service_entry_ok] at hok
      have hbb : b1 ≤ b2 := of_decide_eq_true hok
      cases loc with
      | some l =>
        simp only [calculate_price_estimate, hf, Option.some.injEq] at h
        subst h
        have hbounds := boda_cost_bounds l tod
        exact ⟨hbounds.2, add_le_add_left hbounds.2 flat_fee⟩
      | none =>
        simp only [calculate_price_estimate, hf, Option.some.injEq] at h
        subst h
        exact hbb
    | pickAndDrop pickup_boda return_boda service_fee note =>
      obtain ⟨a1, a2⟩ := pickup_boda
      obtain ⟨r1, r2⟩ := return_boda
      simp only [service_entry_ok, Bool.and_eq_true] at hok
      have ha : a1 ≤ a2 := of_decide_eq_true hok.1
      have hr : r1 ≤ r2 := of_decide_eq_true hok.2
      cases loc with
      | some l =>
        simp only [calculate_price_estimate, hf, Option.some.injEq] at h
        subst h
        have hbounds := boda_cost_bounds l tod
        exact ⟨hbounds.2, hbounds.2,
          add_le_add_right (add_le_add hbounds.2 hbounds.2) service_fee⟩
      | none =>
        simp only [calculate_price_estimate, hf, Option.some.injEq] at h
        subst h
        exact ⟨ha, hr, add_le_add_right (add_le_add ha hr) service_fee⟩
    | fixedRange range note =>
      obtain ⟨a, b⟩ := range
      simp only [service_entry_ok] at hok
      simp only [calculate_price_estimate, hf, Option.some.injEq] at h
      subst h
      show a ≤ b
      exact of_decide_eq_true hok
    | standard labor parts_range time_mins note =>
      obtain ⟨p1, p2⟩ := parts_range
      obtain ⟨t0, t1⟩ := time_mins
      simp only [calculate_price_estimate, hf, Option.some.injEq] at h
      subst h
      apply standard_estimate_ranges_ok
      · cases labor with
        | range a b =>
          simp only [service_entry_ok, Bool.and_eq_true] at hok
          exact ⟨of_decide_eq_true hok.1.1.1, of_decide_eq_true hok.1.1.2⟩
        | single v => trivial
      · cases labor with
        | range a b =>
          simp only [service_entry_ok, Bool.and_eq_true] at hok
          exact of_decide_eq_true hok.1.2
        | single v =>
          simp only [service_entry_ok, Bool.and_eq_true] at hok
          exact of_decide_eq_true hok.1.2
      · cases labor with
        | range a b =>
          simp only [service_entry_ok, Bool.and_eq_true] at hok
          exact of_decide_eq_true hok.2
        | single v =>
          simp only [service_entry_ok, Bool.and_eq_true] at hok
          exact of_decide_eq_true hok.2
      · exact zone_multiplier_pos zone
      · exact car_multiplier_pos car

/-- Witness for C9 at the "towing" service, whose fixed range [2500, 25000] is
returned unchanged. -/
theorem c9_ranges_invariant_witness :
    calculate_price_estimate "towing" "Westlands" "Toyota" none "normal" =
      some (.towing (2500, 25000) "Distance-dependent. Could be more for long distances") ∧
    ranges_ok (.towing (2500, 25000) "Distance-dependent. Could be more for long distances") :=
  ⟨rfl, c9_ranges_invariant "towing" "Westlands" "Toyota" none "normal" _ rfl⟩

/-! ## Multiplier monotonicity (C8) -/

/-- Projection: the `total_range` reported by an estimate. -/
def total_range_of : PriceEstimate → Option (ℤ × ℤ)
  | .standard _ _ total _ _ => some total
  | .mobileCalloutLocated _ _ total _ _ _ _ _ => some total
  | .pickAndDropLocated _ _ _ total _ _ _ _ _ => some total
  | .pickAndDropGeneric _ _ _ total _ => some total
  | _ => none

/-- The total range of a range-labor `standard_estimate`, as a pair. -/
def standard_total (l0 l1 : ℤ) (parts time : ℤ × ℤ) (note : Option String)
    (zm cm : ℚ) : ℤ × ℤ :=
  (total_range_of (standard_estimate (.range l0 l1) parts time note zm cm)).getD (0, 0)

theorem standard_total_eq (l0 l1 : ℤ) (parts time : ℤ × ℤ) (note : Option String)
    (zm cm : ℚ) :
    standard_total l0 l1 parts time note zm cm =
      (pyInt ((l0 : ℚ) * zm * cm) + (if 0 < parts.1 then pyInt ((parts.1 : ℚ) * cm) else 0),
       if 0 < (if 0 < parts.2 then pyInt ((parts.2 : ℚ) * cm) else 0) then
         pyInt ((l1 : ℚ) * zm * cm) + (if 0 < parts.2 then pyInt ((parts.2 : ℚ) * cm) else 0)
       else pyInt ((l1 : ℚ) * zm * cm)) := rfl

/-- Labor bound monotone in the zone multiplier. -/
theorem labor_term_mono_zone (l : ℤ) (hl : 0 ≤ l) (zm zm' cm : ℚ)
    (h0z : 0 ≤ zm) (h0c : 0 ≤ cm) (hz : zm ≤ zm') :
    pyInt ((l : ℚ) * zm * cm) ≤ pyInt ((l : ℚ) * zm' * cm) :=
  pyInt_mono _ _ (mul_nonneg (mul_nonneg (by exact_mod_cast hl) h0z) h0c)
    (mul_le_mul_of_nonneg_right
      (mul_le_mul_of_nonneg_left hz (by exact_mod_cast hl)) h0c)

/-- Labor bound monotone in the car multiplier. -/
theorem labor_term_mono_car (l : ℤ) (hl : 0 ≤ l) (zm cm cm' : ℚ)
    (h0z : 0 ≤ zm) (h0c : 0 ≤ cm) (hc : cm ≤ cm') :
    pyInt ((l : ℚ) * zm * cm) ≤ pyInt ((l : ℚ) * zm * cm') :=
  pyInt_mono _ _ (mul_nonneg (mul_nonneg (by exact_mod_cast hl) h0z) h0c)
    (mul_le_mul_of_nonneg_left hc (mul_nonneg (by exact_mod_cast hl) h0z))

/-- Parts bound monotone in the car multiplier. -/
theorem parts_term_mono_car (p : ℤ) (cm cm' : ℚ) (h0c : 0 ≤ cm) (hc : cm ≤ cm') :
    (if 0 < p then pyInt ((p : ℚ) * cm) else 0) ≤
      (if 0 < p then pyInt ((p : ℚ) * cm') else 0) := by
  split_ifs with hp
  · exact pyInt_mono _ _ (mul_nonneg (by exact_mod_cast hp.le) h0c)
      (mul_le_mul_of_nonneg_left hc (by exact_mod_cast hp.le))
  · exact le_refl 0

/-- The total upper bound is monotone when the shared parts bound is fixed. -/
theorem total_snd_mono_same (A B PX : ℤ) (hA : A ≤ B) :
    (if 0 < PX then A + PX else A) ≤ (if 0 < PX then B + PX else B) := by
  by_cases h : 0 < PX
  · rw [if_pos h, if_pos h]
    exact add_le_add_right hA PX
  · rw [if_neg h, if_neg h]
    exact hA

/-- The total upper bound is monotone in both the labor and the parts bound. -/
theorem total_snd_mono (A B PX PY : ℤ) (hA : A ≤ B) (hPX : PX ≤ PY) (hPY0 : 0 ≤ PY) :
    (if 0 < PX then A + PX else A) ≤ (if 0 < PY then B + PY else B) := by
  by_cases h1 : 0 < PX
  · rw [if_pos h1, if_pos (lt_of_lt_of_le h1 hPX)]
    exact add_le_add hA hPX
  · rw [if_neg h1]
    by_cases h2 : 0 < PY
    · rw [if_pos h2]
      exact le_trans hA (le_add_of_nonneg_right hPY0)
    · rw [if_neg h2]
      exact hA

/-- C8. For every Standard catalog service whose labor and parts are numeric
ranges, and all nonnegative multipliers, increasing the zone multiplier with the
car multiplier fixed, or the car multiplier with the zone multiplier fixed,
never decreases either bound of the returned total range: the monotonicity
survives the per-bound integer truncation `pyInt`. -/
theorem c8_multiplier_monotonicity (key : String) (l0 l1 : ℤ) (parts time : ℤ × ℤ)
    (note : Option String)
    (hmem : (key, ServiceEntry.standard (.range l0 l1) parts time note) ∈ services)
    (zm zm' cm cm' : ℚ) (h0z : 0 ≤ zm) (h0c : 0 ≤ cm) (hz : zm ≤ zm') (hc : cm ≤ cm') :
    ((standard_total l0 l1 parts time note zm cm).1 ≤
        (standard_total l0 l1 parts time note zm' cm).1 ∧
      (standard_total l0 l1 parts time note zm cm).2 ≤
        (standard_total l0 l1 parts time note zm' cm).2) ∧
    ((standard_total l0 l1 parts time note zm cm).1 ≤
        (standard_total l0 l1 parts time note zm cm').1 ∧
      (standard_total l0 l1 parts time note zm cm).2 ≤
        (standard_total l0 l1 parts time note zm cm').2) := by
  have hok := List.all_eq_true.mp services_ok _ hmem
  obtain ⟨p1, p2⟩ := parts
  obtain ⟨t0, t1⟩ := time
  simp only [service_entry_ok, Bool.and_eq_true] at hok
  have hl0 : 0 ≤ l0 := of_decide_eq_true hok.1.1.1
  have hl01 : l0 ≤ l1 := of_decide_eq_true hok.1.1.2
  have hl1 : 0 ≤ l1 := hl0.trans hl01
  rw [standard_total_eq, standard_total_eq, standard_total_eq]
  refine ⟨⟨?_, ?_⟩, ⟨?_, ?_⟩⟩
  · exact add_le_add_right (labor_term_mono_zone l0 hl0 zm zm' cm h0z h0c hz) _
  · exact total_snd_mono_same _ _ _ (labor_term_mono_zone l1 hl1 zm zm' cm h0z h0c hz)
  · exact add_le_add (labor_term_mono_car l0 hl0 zm cm cm' h0z h0c hc)
      (parts_term_mono_car p1 cm cm' h0c hc)
  · exact total_snd_mono _ _ _ _ (labor_term_mono_car l1 hl1 zm cm cm' h0z h0c hc)
      (parts_term_mono_car p2 cm cm' h0c hc) (parts_term_nonneg p2 cm' (h0c.trans hc))

/-- Witness for C8 at the battery-replacement service with zone multiplier
raised from 1 to 2 and car multiplier raised from 1 to 2. -/
theorem c8_multiplier_monotonicity_witness :
    (("battery_replacement", ServiceEntry.standard (.range 1000 4000) (6500, 28000) (20, 60)
        (some "Labor varies based on accessibility and connections")) ∈ services ∧
      (0 : ℚ) ≤ 1 ∧ (1 : ℚ) ≤ 2) ∧
    (((standard_total 1000 4000 (6500, 28000) (20, 60)
          (some "Labor varies based on accessibility and connections") 1 1).1 ≤
        (standard_total 1000 4000 (6500, 28000) (20, 60)
          (some "Labor varies based on accessibility and connections") 2 1).1 ∧
      (standard_total 1000 4000 (6500, 28000) (20, 60)
          (some "Labor varies based on accessibility and connections") 1 1).2 ≤
        (standard_total 1000 4000 (6500, 28000) (20, 60)
          (some "Labor varies based on accessibility and connections") 2 1).2) ∧
    ((standard_total 1000 4000 (6500, 28000) (20, 60)
          (some "Labor varies based on accessibility and connections") 1 1).1 ≤
        (standard_total 1000 4000 (6500, 28000) (20, 60)
          (some "Labor varies based on accessibility and connections") 1 2).1 ∧
      (standard_total 1000 4000 (6500, 28000) (20, 60)
          (some "Labor varies based on accessibility and connections") 1 1).2 ≤
        (standard_total 1000 4000 (6500, 28000) (20, 60)
          (some "Labor varies based on accessibility and connections") 1 2).2)) :=
  ⟨⟨by decide, zero_le_one, one_le_two⟩,
    c8_multiplier_monotonicity "battery_replacement" 1000 4000 (6500, 28000) (20, 60)
      (some "Labor varies based on accessibility and connections") (by decide)
      1 2 1 2 zero_le_one zero_le_one one_le_two one_le_two⟩
